import Mathlib

/-!
Shallow embedding of the feedback-sink resolution and provisioning subsystem
of the Gikibot repository (the feedback API route: credential loading,
`getSheetsClient`, `ensureSpreadsheetId`, `ensureSheetTab`, and the `POST`
handler).

External interaction with the Google Sheets service and the filesystem is
modelled by an explicit `World` record plus a trace of `Effect`s, and the
module-level mutable variables (`cachedSpreadsheetId`, `sheetsClientPromise`)
by an explicit `ProcState` threaded through each function.  JavaScript
`Date` parsing and ISO-8601 formatting are abstracted as two functions
carried in the environment (`parseDate`, `isoString`): `parseDate` returns
`none` exactly when `new Date(s)` would be an Invalid Date (in which case
`toISOString` throws a RangeError), and `isoString` renders an instant in
ISO-8601 form.
-/

namespace Gikibot

/-- One entry of the `fullConversation` payload field. -/
structure ConvEntry where
  role : String
  message : String
  timestamp : String
deriving DecidableEq, Repr

/-- The JSON body of an inbound feedback submission.  A field is `none` when
it is absent from the JSON object (JavaScript `undefined`); `fullConversation`
is `none` when the field is absent or is not an array
(`Array.isArray(payload.fullConversation)` is false). -/
structure Payload where
  feedbackType : Option String
  userComment : Option String
  lastQuestion : Option String
  lastResponse : Option String
  sessionId : Option String
  typeField : Option String
  admissionsType : Option String
  timestamp : Option String
  fullConversation : Option (List ConvEntry)
deriving DecidableEq, Repr

/-- The payload `\x7b\x7d` substituted by `req.json().catch(() => (\x7b\x7d))`
when the request body is not parseable as JSON. -/
def emptyPayload : Payload :=
  ⟨none, none, none, none, none, none, none, none, none⟩

/-- Process environment and JavaScript runtime, fixed for the process:
`TAB_NAME`, `ENV_SPREADSHEET_ID`, the parsed `GOOGLE_SHEETS_CREDENTIALS`
(`none` when the variable is missing or its JSON is malformed), and the
`Date` parsing/formatting oracles. -/
structure Env where
  tabName : String
  envSpreadsheetId : String
  credentials : Option String
  parseDate : String → Option Int
  isoString : Int → String

/-- State of the external world: which spreadsheet ids
`spreadsheets.get` accepts, the tab titles of each spreadsheet, the content
of the on-disk `.feedback-sheet-id.cache` file (`none` when the file does not
exist), the `spreadsheetId` field of a `spreadsheets.create` response
(`none` models a response carrying no id), and the current time in epoch
milliseconds. -/
structure World where
  accessible : String → Bool
  sheetTitles : String → List String
  cacheFile : Option String
  createResult : Option String
  nowMs : Int

/-- The module-level mutable state of the route:
`cachedSpreadsheetId` and whether `sheetsClientPromise` is non-null. -/
structure ProcState where
  cachedSpreadsheetId : String
  clientReady : Bool
deriving DecidableEq, Repr

/-- The state the module-level variables hold when the process starts:
`cachedSpreadsheetId = ENV_SPREADSHEET_ID || ""` and a null client promise. -/
def initialState (env : Env) : ProcState :=
  ⟨env.envSpreadsheetId, false⟩

/-- Externally observable operations: Google Sheets API calls and accesses to
the on-disk identifier cache file. -/
inductive Effect where
  | getSpreadsheet (id : String)
  | createSpreadsheet
  | addSheet (id : String)
  | writeHeader (id : String) (header : List String)
  | appendRow (id : String) (row : List String)
  | readCacheFile
  | writeCacheFile (value : String)
deriving DecidableEq, Repr

/-- Result of running one stateful operation: an `Except`-valued outcome
(`.error` models a thrown exception), the updated process state and world,
and the trace of external effects performed, in order. -/
structure RunResult (α : Type) where
  result : Except String α
  state : ProcState
  world : World
  trace : List Effect

/-- Prefix a run's effect trace with effects performed before it. -/
def withPre {α : Type} (es : List Effect) (r : RunResult α) : RunResult α :=
  { r with trace := es ++ r.trace }

@[simp] theorem withPre_result {α : Type} (es : List Effect) (r : RunResult α) :
    (withPre es r).result = r.result := rfl

@[simp] theorem withPre_state {α : Type} (es : List Effect) (r : RunResult α) :
    (withPre es r).state = r.state := rfl

@[simp] theorem withPre_world {α : Type} (es : List Effect) (r : RunResult α) :
    (withPre es r).world = r.world := rfl

@[simp] theorem withPre_trace {α : Type} (es : List Effect) (r : RunResult α) :
    (withPre es r).trace = es ++ r.trace := rfl

/-- JavaScript `String.prototype.trim`: strip leading and trailing
whitespace. -/
def jsTrim (s : String) : String :=
  String.mk
    (((s.toList.dropWhile Char.isWhitespace).reverse.dropWhile
      Char.isWhitespace).reverse)

/-- The fixed header row written to the feedback tab. -/
def HEADER : List String :=
  ["timestamp", "feedbackType", "userComment", "lastQuestion",
   "lastResponse", "fullConversation", "sessionId", "Type"]

/-- Credential Loader: `JSON.parse` of `GOOGLE_SHEETS_CREDENTIALS` inside a
`try/catch` whose handler only warns, leaving `credentials` null.  `parse`
models `JSON.parse`, returning `none` on malformed input. -/
def loadCredentials (parse : String → Option String) (raw : Option String) :
    Option String :=
  match raw with
  | none => none
  | some s => parse s

/-- `getSheetsClient`: returns the memoized client promise if present;
otherwise throws when credentials are missing, else builds the client
(locally, no network call) and memoizes it. -/
def getSheetsClient (env : Env) (s : ProcState) :
    Except String Unit × ProcState :=
  if s.clientReady then
    (Except.ok (), s)
  else
    match env.credentials with
    | none =>
        (Except.error "Google Sheets feedback integration is missing required credentials (GOOGLE_SHEETS_CREDENTIALS).", s)
    | some _ => (Except.ok (), { s with clientReady := true })

/-- Creation tier of `ensureSpreadsheetId` (its final block):
`spreadsheets.create` with one tab titled `TAB_NAME` and a frozen first row;
if the response carries no id (or an empty one), throw the provisioning
error; otherwise memoize the id, write it to the cache file, and write the
header row via `values.update`. -/
def createTier (env : Env) (w : World) (s : ProcState) : RunResult String :=
  match w.createResult with
  | none =>
      ⟨Except.error "Failed to auto-create fallback spreadsheet.", s, w,
        [Effect.createSpreadsheet]⟩
  | some id =>
      if id = "" then
        ⟨Except.error "Failed to auto-create fallback spreadsheet.", s, w,
          [Effect.createSpreadsheet]⟩
      else
        ⟨Except.ok id,
          { s with cachedSpreadsheetId := id },
          { w with
              accessible := fun x => x == id || w.accessible x,
              sheetTitles := fun x =>
                if x == id then [env.tabName] else w.sheetTitles x,
              cacheFile := some id },
          [Effect.createSpreadsheet, Effect.writeCacheFile id,
           Effect.writeHeader id HEADER]⟩

/-- File-cache tier of `ensureSpreadsheetId`: read the cache file (a missing
file is ignored), trim it, and if non-empty verify accessibility; on success
memoize and return, otherwise (or when the file is missing/blank) fall
through to creation. -/
def fileTier (env : Env) (w : World) (s : ProcState) : RunResult String :=
  match w.cacheFile with
  | none => withPre [Effect.readCacheFile] (createTier env w s)
  | some stored =>
      let parsed := jsTrim stored
      if parsed = "" then
        withPre [Effect.readCacheFile] (createTier env w s)
      else
        if w.accessible parsed then
          ⟨Except.ok parsed, { s with cachedSpreadsheetId := parsed }, w,
            [Effect.readCacheFile, Effect.getSpreadsheet parsed]⟩
        else
          withPre [Effect.readCacheFile, Effect.getSpreadsheet parsed]
            (createTier env w s)

/-- Environment-variable tier of `ensureSpreadsheetId`: if
`ENV_SPREADSHEET_ID` is set, verify accessibility; on success memoize and
return it, on failure log and fall through to the file-cache tier. -/
def envTier (env : Env) (w : World) (s : ProcState) : RunResult String :=
  if env.envSpreadsheetId = "" then
    fileTier env w s
  else
    if w.accessible env.envSpreadsheetId then
      ⟨Except.ok env.envSpreadsheetId,
        { s with cachedSpreadsheetId := env.envSpreadsheetId }, w,
        [Effect.getSpreadsheet env.envSpreadsheetId]⟩
    else
      withPre [Effect.getSpreadsheet env.envSpreadsheetId] (fileTier env w s)

/-- `ensureSpreadsheetId`: if a memoized id exists, verify it with
`spreadsheets.get`; on success return it, on failure clear the memo and fall
through to the environment-variable tier, then the file-cache tier, then
creation. -/
def ensureSpreadsheetId (env : Env) (w : World) (s : ProcState) :
    RunResult String :=
  if s.cachedSpreadsheetId = "" then
    envTier env w s
  else
    if w.accessible s.cachedSpreadsheetId then
      ⟨Except.ok s.cachedSpreadsheetId, s, w,
        [Effect.getSpreadsheet s.cachedSpreadsheetId]⟩
    else
      withPre [Effect.getSpreadsheet s.cachedSpreadsheetId]
        (envTier env w { s with cachedSpreadsheetId := "" })

/-- `ensureSheetTab`: list the spreadsheet's tabs via `spreadsheets.get`
(throws if the spreadsheet is inaccessible); if a tab titled `TAB_NAME`
exists this is a no-op, otherwise add the tab (frozen first row) and write
the header row. -/
def ensureSheetTab (env : Env) (w : World) (s : ProcState)
    (spreadsheetId : String) : RunResult Unit :=
  if w.accessible spreadsheetId then
    if env.tabName ∈ w.sheetTitles spreadsheetId then
      ⟨Except.ok (), s, w, [Effect.getSpreadsheet spreadsheetId]⟩
    else
      ⟨Except.ok (), s,
        { w with sheetTitles := fun x =>
            if x == spreadsheetId then w.sheetTitles x ++ [env.tabName]
            else w.sheetTitles x },
        [Effect.getSpreadsheet spreadsheetId, Effect.addSheet spreadsheetId,
         Effect.writeHeader spreadsheetId HEADER]⟩
  else
    ⟨Except.error "Requested entity was not found.", s, w,
      [Effect.getSpreadsheet spreadsheetId]⟩

/-- JavaScript `a || ""` on an optional string field (both `undefined` and
the empty string are falsy). -/
def jsOrEmpty (a : Option String) : String := a.getD ""

/-- JavaScript `a || b` where `a` is an optional string field. -/
def jsOr (a : Option String) (b : String) : String :=
  match a with
  | none => b
  | some s => if s = "" then b else s

/-- The string escaping performed by `JSON.stringify` on the characters that
need it. -/
def jsonEscape (s : String) : String :=
  String.join (s.toList.map fun c =>
    if c = '"' then "\\\""
    else if c = '\\' then "\\\\"
    else if c = '\n' then "\\n"
    else if c = '\r' then "\\r"
    else if c = '\t' then "\\t"
    else String.singleton c)

/-- `JSON.stringify` of one conversation entry. -/
def stringifyEntry (e : ConvEntry) : String :=
  "\x7b\"role\":\"" ++ jsonEscape e.role ++ "\",\"message\":\""
    ++ jsonEscape e.message ++ "\",\"timestamp\":\""
    ++ jsonEscape e.timestamp ++ "\"\x7d"

/-- `JSON.stringify(fullConversation)`. -/
def stringifyConv (l : List ConvEntry) : String :=
  "[" ++ String.intercalate "," (l.map stringifyEntry) ++ "]"

/-- `(payload.feedbackType || "").toString().trim()`. -/
def normFeedbackType (p : Payload) : String := jsTrim (jsOrEmpty p.feedbackType)

/-- `(payload.type || payload.admissionsType || "").toString().trim()`. -/
def normTypeLabel (p : Payload) : String :=
  jsTrim (jsOr p.typeField (jsOrEmpty p.admissionsType))

/-- `(payload.timestamp || "").toString().trim()`. -/
def normProvidedTimestamp (p : Payload) : String :=
  jsTrim (jsOrEmpty p.timestamp)

/-- The HTTP response produced by the route: status code together with the
JSON body (`\x7berror\x7d` or `\x7bsuccess:true\x7d`). -/
structure HttpResponse where
  status : Nat
  error : Option String
  success : Bool
deriving DecidableEq, Repr

/-- Result of one invocation of the `POST` handler. -/
structure PostResult where
  response : HttpResponse
  state : ProcState
  world : World
  trace : List Effect

/-- The serialized eight-column row appended for a submission, in header
order: timestamp, feedbackType, userComment, lastQuestion, lastResponse,
`JSON.stringify(fullConversation)`, sessionId, type label. -/
def recordRow (payload : Payload) (timestamp : String) : List String :=
  [timestamp, normFeedbackType payload, jsOrEmpty payload.userComment,
   jsOrEmpty payload.lastQuestion, jsOrEmpty payload.lastResponse,
   stringifyConv (payload.fullConversation.getD []),
   jsOrEmpty payload.sessionId, normTypeLabel payload]

/-- The tail of the `POST` handler after validation and timestamp
normalization: client → `ensureSpreadsheetId` → `ensureSheetTab` →
`values.append`, any thrown error becoming a 500 response. -/
def appendPipeline (env : Env) (w : World) (s : ProcState)
    (payload : Payload) (timestamp : String) : PostResult :=
  match getSheetsClient env s with
  | (Except.error m, s1) => ⟨⟨500, some m, false⟩, s1, w, []⟩
  | (Except.ok _, s1) =>
    let r1 := ensureSpreadsheetId env w s1
    match r1.result with
    | Except.error m => ⟨⟨500, some m, false⟩, r1.state, r1.world, r1.trace⟩
    | Except.ok spreadsheetId =>
      let r2 := ensureSheetTab env r1.world r1.state spreadsheetId
      match r2.result with
      | Except.error m =>
          ⟨⟨500, some m, false⟩, r2.state, r2.world, r1.trace ++ r2.trace⟩
      | Except.ok _ =>
          ⟨⟨200, none, true⟩, r2.state, r2.world,
            r1.trace ++ r2.trace ++
              [Effect.appendRow spreadsheetId (recordRow payload timestamp)]⟩

/-- The `POST` handler on an already-parsed JSON body: validate
`feedbackType`, normalize the timestamp (an unparseable caller-supplied
timestamp makes `toISOString` throw a RangeError, caught by the outer
handler as a 500), then run the append pipeline. -/
def POST (env : Env) (w : World) (s : ProcState) (payload : Payload) :
    PostResult :=
  if normFeedbackType payload = "" ∨
      normFeedbackType payload ∉ ["positive", "negative"] then
    ⟨⟨400, some "feedbackType must be \"positive\" or \"negative\".", false⟩,
      s, w, []⟩
  else
    match
      (if normProvidedTimestamp payload = "" then
        Except.ok (env.isoString w.nowMs)
      else
        match env.parseDate (normProvidedTimestamp payload) with
        | none => Except.error "Invalid time value"
        | some ms =>
            Except.ok (env.isoString ms) : Except String String) with
    | Except.error m => ⟨⟨500, some m, false⟩, s, w, []⟩
    | Except.ok timestamp => appendPipeline env w s payload timestamp

/-- The `POST` handler on a raw request body:
`req.json().catch(() => (\x7b\x7d))` substitutes an empty object when the
body is not parseable JSON (`body = none`). -/
def POSTofBody (env : Env) (w : World) (s : ProcState)
    (body : Option Payload) : PostResult :=
  POST env w s (body.getD emptyPayload)

/-! ### Spec-side descriptions

These definitions follow the specification's words (the tier order
"configuration value → cache file → creation") rather than the source; they
exist to be compared with the traces the implementation produces. -/

/-- Modelled from the spec: the effects of the creation tier — one creation
call, followed (only on success) by the cache-file write and the header
write. -/
def specCreateTrace (w : World) : List Effect :=
  match w.createResult with
  | none => [Effect.createSpreadsheet]
  | some id =>
      if id = "" then [Effect.createSpreadsheet]
      else [Effect.createSpreadsheet, Effect.writeCacheFile id,
            Effect.writeHeader id HEADER]

/-- Modelled from the spec: the effects of the cache-file tier followed, when
it does not succeed, by the creation tier. -/
def specFileTrace (w : World) : List Effect :=
  match w.cacheFile with
  | none => Effect.readCacheFile :: specCreateTrace w
  | some stored =>
      if jsTrim stored = "" then Effect.readCacheFile :: specCreateTrace w
      else
        if w.accessible (jsTrim stored) then
          [Effect.readCacheFile, Effect.getSpreadsheet (jsTrim stored)]
        else
          Effect.readCacheFile :: Effect.getSpreadsheet (jsTrim stored) ::
            specCreateTrace w

/-- Modelled from the spec: the effects of falling through the tiers in the
order configuration value → cache file → creation, stopping at the first
success. -/
def specFallbackTrace (env : Env) (w : World) : List Effect :=
  if env.envSpreadsheetId = "" then specFileTrace w
  else
    if w.accessible env.envSpreadsheetId then
      [Effect.getSpreadsheet env.envSpreadsheetId]
    else
      Effect.getSpreadsheet env.envSpreadsheetId :: specFileTrace w

/-! ### Helper lemmas about the tiers -/

theorem trace_createTier (env : Env) (w : World) (s : ProcState) :
    (createTier env w s).trace = specCreateTrace w := by
  unfold createTier specCreateTrace
  rcases w.createResult with _ | id
  · rfl
  · by_cases h : id = "" <;> simp [h]

theorem trace_fileTier (env : Env) (w : World) (s : ProcState) :
    (fileTier env w s).trace = specFileTrace w := by
  unfold fileTier specFileTrace
  rcases w.cacheFile with _ | stored
  · simp [trace_createTier]
  · by_cases h : jsTrim stored = ""
    · simp [h, trace_createTier]
    · by_cases h2 : w.accessible (jsTrim stored) <;> simp [h, h2, trace_createTier]

theorem trace_envTier (env : Env) (w : World) (s : ProcState) :
    (envTier env w s).trace = specFallbackTrace env w := by
  unfold envTier specFallbackTrace
  by_cases h : env.envSpreadsheetId = ""
  · simp [h, trace_fileTier]
  · by_cases h2 : w.accessible env.envSpreadsheetId <;>
      simp [h, h2, trace_fileTier]

/-- When a memoized identifier exists and verifies, `ensureSpreadsheetId`
returns it with only the verification probe. -/
theorem ensureSpreadsheetId_memo_hit (env : Env) (w : World) (s : ProcState)
    (id : String) (h1 : s.cachedSpreadsheetId = id) (h2 : id ≠ "")
    (h3 : w.accessible id = true) :
    ensureSpreadsheetId env w s =
      ⟨Except.ok id, s, w, [Effect.getSpreadsheet id]⟩ := by
  unfold ensureSpreadsheetId
  rw [h1, if_neg h2, h3, if_pos rfl]

theorem createTier_ok (env : Env) (w : World) (s : ProcState) (id : String)
    (h : (createTier env w s).result = Except.ok id) :
    (createTier env w s).state.cachedSpreadsheetId = id ∧ id ≠ "" ∧
    (createTier env w s).world.accessible id = true := by
  unfold createTier at h ⊢
  cases hc : w.createResult with
  | none => rw [hc] at h; simp at h
  | some cid =>
    rw [hc] at h
    by_cases he : cid = ""
    · simp [he] at h
    · simp [he] at h ⊢
      subst h
      simp [he]

theorem fileTier_ok (env : Env) (w : World) (s : ProcState) (id : String)
    (h : (fileTier env w s).result = Except.ok id) :
    (fileTier env w s).state.cachedSpreadsheetId = id ∧ id ≠ "" ∧
    (fileTier env w s).world.accessible id = true := by
  unfold fileTier at h ⊢
  cases hc : w.cacheFile with
  | none =>
    rw [hc] at h
    simpa using createTier_ok env w s id (by simpa using h)
  | some stored =>
    rw [hc] at h
    by_cases ht : jsTrim stored = ""
    · simp only [ht, if_pos rfl] at h ⊢
      simpa using createTier_ok env w s id (by simpa using h)
    · simp only [if_neg ht] at h ⊢
      by_cases ha : w.accessible (jsTrim stored)
      · simp only [ha, if_pos rfl] at h ⊢
        simp at h
        subst h
        exact ⟨rfl, ht, ha⟩
      · rw [if_neg ha] at h ⊢
        simpa using createTier_ok env w s id (by simpa using h)

theorem envTier_ok (env : Env) (w : World) (s : ProcState) (id : String)
    (h : (envTier env w s).result = Except.ok id) :
    (envTier env w s).state.cachedSpreadsheetId = id ∧ id ≠ "" ∧
    (envTier env w s).world.accessible id = true := by
  unfold envTier at h ⊢
  by_cases he : env.envSpreadsheetId = ""
  · rw [if_pos he] at h ⊢
    exact fileTier_ok env w s id h
  · rw [if_neg he] at h ⊢
    by_cases ha : w.accessible env.envSpreadsheetId
    · rw [if_pos ha] at h ⊢
      simp at h
      subst h
      exact ⟨rfl, he, ha⟩
    · rw [if_neg ha] at h ⊢
      simpa using fileTier_ok env w s id (by simpa using h)

theorem ensureSpreadsheetId_ok (env : Env) (w : World) (s : ProcState)
    (id : String)
    (h : (ensureSpreadsheetId env w s).result = Except.ok id) :
    (ensureSpreadsheetId env w s).state.cachedSpreadsheetId = id ∧ id ≠ "" ∧
    (ensureSpreadsheetId env w s).world.accessible id = true := by
  unfold ensureSpreadsheetId at h ⊢
  by_cases hm : s.cachedSpreadsheetId = ""
  · rw [if_pos hm] at h ⊢
    exact envTier_ok env w s id h
  · rw [if_neg hm] at h ⊢
    by_cases ha : w.accessible s.cachedSpreadsheetId
    · rw [if_pos ha] at h ⊢
      simp at h
      subst h
      exact ⟨rfl, hm, ha⟩
    · rw [if_neg ha] at h ⊢
      simpa using
        envTier_ok env w { s with cachedSpreadsheetId := "" } id
          (by simpa using h)

/-- Claim C4: resolution is idempotent within a process — if a resolution
call returns an identifier, an immediately following call (no intervening
external-state change) returns the same identifier, performs only the single
verification probe, and performs no creation call. -/
theorem C4_resolution_idempotent (env : Env) (w : World) (s : ProcState)
    (id : String)
    (h : (ensureSpreadsheetId env w s).result = Except.ok id) :
    (ensureSpreadsheetId env (ensureSpreadsheetId env w s).world
        (ensureSpreadsheetId env w s).state).result = Except.ok id ∧
    (ensureSpreadsheetId env (ensureSpreadsheetId env w s).world
        (ensureSpreadsheetId env w s).state).trace =
      [Effect.getSpreadsheet id] ∧
    Effect.createSpreadsheet ∉
      (ensureSpreadsheetId env (ensureSpreadsheetId env w s).world
        (ensureSpreadsheetId env w s).state).trace := by
  obtain ⟨hcache, hne, hacc⟩ := ensureSpreadsheetId_ok env w s id h
  rw [ensureSpreadsheetId_memo_hit env _ _ id hcache hne hacc]
  exact ⟨rfl, rfl, by simp⟩

/-- Concrete instantiation of `C4_resolution_idempotent`: a memoized,
accessible identifier. -/
theorem C4_resolution_idempotent_witness :
    (ensureSpreadsheetId ⟨"Feedback", "", some "c", fun _ => some 0,
        fun _ => "T"⟩
      ⟨fun x => x == "A", fun _ => ["Feedback"], none, none, 0⟩
      ⟨"A", true⟩).result = Except.ok "A" ∧
    (ensureSpreadsheetId ⟨"Feedback", "", some "c", fun _ => some 0,
        fun _ => "T"⟩
      (ensureSpreadsheetId ⟨"Feedback", "", some "c", fun _ => some 0,
        fun _ => "T"⟩
        ⟨fun x => x == "A", fun _ => ["Feedback"], none, none, 0⟩
        ⟨"A", true⟩).world
      (ensureSpreadsheetId ⟨"Feedback", "", some "c", fun _ => some 0,
        fun _ => "T"⟩
        ⟨fun x => x == "A", fun _ => ["Feedback"], none, none, 0⟩
        ⟨"A", true⟩).state).result = Except.ok "A" ∧
    Effect.createSpreadsheet ∉
      (ensureSpreadsheetId ⟨"Feedback", "", some "c", fun _ => some 0,
        fun _ => "T"⟩
        (ensureSpreadsheetId ⟨"Feedback", "", some "c", fun _ => some 0,
          fun _ => "T"⟩
          ⟨fun x => x == "A", fun _ => ["Feedback"], none, none, 0⟩
          ⟨"A", true⟩).world
        (ensureSpreadsheetId ⟨"Feedback", "", some "c", fun _ => some 0,
          fun _ => "T"⟩
          ⟨fun x => x == "A", fun _ => ["Feedback"], none, none, 0⟩
          ⟨"A", true⟩).state).trace := by
  refine ⟨rfl, ?_, ?_⟩
  · exact (C4_resolution_idempotent
      ⟨"Feedback", "", some "c", fun _ => some 0, fun _ => "T"⟩
      ⟨fun x => x == "A", fun _ => ["Feedback"], none, none, 0⟩
      ⟨"A", true⟩ "A" rfl).1
  · exact (C4_resolution_idempotent
      ⟨"Feedback", "", some "c", fun _ => some 0, fun _ => "T"⟩
      ⟨fun x => x == "A", fun _ => ["Feedback"], none, none, 0⟩
      ⟨"A", true⟩ "A" rfl).2.2

/-- When the memoized identifier fails its verification probe,
`ensureSpreadsheetId` clears the memo and runs the remaining tiers. -/
theorem ensureSpreadsheetId_memo_miss (env : Env) (w : World) (s : ProcState)
    (ha : s.cachedSpreadsheetId ≠ "")
    (hacc : w.accessible s.cachedSpreadsheetId = false) :
    ensureSpreadsheetId env w s =
      withPre [Effect.getSpreadsheet s.cachedSpreadsheetId]
        (envTier env w { s with cachedSpreadsheetId := "" }) := by
  unfold ensureSpreadsheetId
  rw [if_neg ha, hacc]
  simp

theorem createTier_avoid (env : Env) (w : World) (s : ProcState) (a : String)
    (hs : s.cachedSpreadsheetId ≠ a) (hcr : w.createResult ≠ some a) :
    (createTier env w s).result ≠ Except.ok a ∧
    (createTier env w s).state.cachedSpreadsheetId ≠ a := by
  unfold createTier
  cases hc : w.createResult with
  | none => exact ⟨by simp, hs⟩
  | some cid =>
    rw [hc] at hcr
    by_cases he : cid = ""
    · simp [he]
      exact hs
    · have hca : cid ≠ a := fun h => hcr (by rw [h])
      simp [he, hca]

theorem fileTier_avoid (env : Env) (w : World) (s : ProcState) (a : String)
    (hs : s.cachedSpreadsheetId ≠ a) (hacc : w.accessible a = false)
    (hcr : w.createResult ≠ some a) :
    (fileTier env w s).result ≠ Except.ok a ∧
    (fileTier env w s).state.cachedSpreadsheetId ≠ a := by
  unfold fileTier
  cases hc : w.cacheFile with
  | none => simpa using createTier_avoid env w s a hs hcr
  | some stored =>
    by_cases ht : jsTrim stored = ""
    · simp only [ht, if_pos rfl]
      simpa using createTier_avoid env w s a hs hcr
    · simp only [if_neg ht]
      by_cases ha : w.accessible (jsTrim stored)
      · have hpa : jsTrim stored ≠ a := by
          intro h
          rw [h, hacc] at ha
          exact Bool.false_ne_true ha
        rw [if_pos ha]
        exact ⟨by simpa using hpa, hpa⟩
      · rw [if_neg ha]
        simpa using createTier_avoid env w s a hs hcr

theorem envTier_avoid (env : Env) (w : World) (s : ProcState) (a : String)
    (hs : s.cachedSpreadsheetId ≠ a) (hacc : w.accessible a = false)
    (hcr : w.createResult ≠ some a) :
    (envTier env w s).result ≠ Except.ok a ∧
    (envTier env w s).state.cachedSpreadsheetId ≠ a := by
  unfold envTier
  by_cases he : env.envSpreadsheetId = ""
  · rw [if_pos he]
    exact fileTier_avoid env w s a hs hacc hcr
  · rw [if_neg he]
    by_cases ha : w.accessible env.envSpreadsheetId
    · have hea : env.envSpreadsheetId ≠ a := by
        intro h
        rw [h, hacc] at ha
        exact Bool.false_ne_true ha
      rw [if_pos ha]
      exact ⟨by simpa using hea, hea⟩
    · rw [if_neg ha]
      simpa using fileTier_avoid env w s a hs hacc hcr

theorem createTier_world (env : Env) (w : World) (s : ProcState) :
    (createTier env w s).world.cacheFile = w.cacheFile ∨
    ∃ c, (createTier env w s).result = Except.ok c ∧
      (createTier env w s).world.cacheFile = some c ∧
      Effect.createSpreadsheet ∈ (createTier env w s).trace := by
  unfold createTier
  cases hc : w.createResult with
  | none => exact Or.inl rfl
  | some cid =>
    by_cases he : cid = ""
    · simp [he]
    · simp [he]

theorem fileTier_world (env : Env) (w : World) (s : ProcState) :
    (fileTier env w s).world.cacheFile = w.cacheFile ∨
    ∃ c, (fileTier env w s).result = Except.ok c ∧
      (fileTier env w s).world.cacheFile = some c ∧
      Effect.createSpreadsheet ∈ (fileTier env w s).trace := by
  unfold fileTier
  cases hc : w.cacheFile with
  | none =>
    rcases createTier_world env w s with h | ⟨c, h1, h2, h3⟩
    · left
      rw [hc] at h
      simpa using h
    · right
      exact ⟨c, by simpa using h1, by simpa using h2, by simp [h3]⟩
  | some stored =>
    by_cases ht : jsTrim stored = ""
    · simp only [ht, if_pos rfl]
      rcases createTier_world env w s with h | ⟨c, h1, h2, h3⟩
      · left
        rw [hc] at h
        simpa using h
      · right
        exact ⟨c, by simpa using h1, by simpa using h2, by simp [h3]⟩
    · simp only [if_neg ht]
      by_cases ha : w.accessible (jsTrim stored)
      · rw [if_pos ha]
        exact Or.inl hc
      · rw [if_neg ha]
        rcases createTier_world env w s with h | ⟨c, h1, h2, h3⟩
        · left
          rw [hc] at h
          simpa using h
        · right
          exact ⟨c, by simpa using h1, by simpa using h2, by simp [h3]⟩

theorem envTier_world (env : Env) (w : World) (s : ProcState) :
    (envTier env w s).world.cacheFile = w.cacheFile ∨
    ∃ c, (envTier env w s).result = Except.ok c ∧
      (envTier env w s).world.cacheFile = some c ∧
      Effect.createSpreadsheet ∈ (envTier env w s).trace := by
  unfold envTier
  by_cases he : env.envSpreadsheetId = ""
  · rw [if_pos he]
    exact fileTier_world env w s
  · rw [if_neg he]
    by_cases ha : w.accessible env.envSpreadsheetId
    · rw [if_pos ha]
      exact Or.inl rfl
    · rw [if_neg ha]
      rcases fileTier_world env w s with h | ⟨c, h1, h2, h3⟩
      · left
        simpa using h
      · right
        exact ⟨c, by simpa using h1, by simpa using h2, by simp [h3]⟩

/-- Claim C1 counterexample: the memoized identifier `"A"` (also stored in
the on-disk cache file) fails its accessibility check, a new identifier
`"B"` is resolved from the configuration tier, and yet the failed identifier
`"A"` is still in the on-disk cache file after resolution — it was not
evicted from every cache tier. -/
theorem C1_counterexample :
    (⟨fun x => x == "B", fun _ => ["Feedback"], some "A", none,
        0⟩ : World).accessible "A" = false ∧
    (ensureSpreadsheetId ⟨"Feedback", "B", some "c", fun _ => some 0,
        fun _ => "T"⟩
      ⟨fun x => x == "B", fun _ => ["Feedback"], some "A", none, 0⟩
      ⟨"A", true⟩).result = Except.ok "B" ∧
    (ensureSpreadsheetId ⟨"Feedback", "B", some "c", fun _ => some 0,
        fun _ => "T"⟩
      ⟨fun x => x == "B", fun _ => ["Feedback"], some "A", none, 0⟩
      ⟨"A", true⟩).world.cacheFile = some "A" :=
  ⟨rfl, rfl, rfl⟩

/-- Claim C1 (amended): a memoized identifier that fails the accessibility
check is evicted from the in-memory memo before a new identifier is
resolved, but the on-disk cache file is not cleared on failure — it is left
unchanged unless creation succeeds, in which case it is overwritten with the
newly created identifier. -/
theorem C1_eviction_memory_only (env : Env) (w : World) (s : ProcState)
    (ha : s.cachedSpreadsheetId ≠ "")
    (hacc : w.accessible s.cachedSpreadsheetId = false)
    (hcr : w.createResult ≠ some s.cachedSpreadsheetId) :
    (ensureSpreadsheetId env w s).state.cachedSpreadsheetId ≠
      s.cachedSpreadsheetId ∧
    ((ensureSpreadsheetId env w s).world.cacheFile = w.cacheFile ∨
      ∃ c, (ensureSpreadsheetId env w s).result = Except.ok c ∧
        (ensureSpreadsheetId env w s).world.cacheFile = some c) := by
  rw [ensureSpreadsheetId_memo_miss env w s ha hacc]
  constructor
  · simpa using
      (envTier_avoid env w { s with cachedSpreadsheetId := "" }
        s.cachedSpreadsheetId (Ne.symm ha) hacc hcr).2
  · rcases envTier_world env w { s with cachedSpreadsheetId := "" } with
      h | ⟨c, h1, h2, h3⟩
    · left
      simpa using h
    · right
      exact ⟨c, by simpa using h1, by simpa using h2⟩

/-- Concrete instantiation of `C1_eviction_memory_only`: memo `"A"` fails,
the configuration identifier `"B"` is resolved, the memo no longer holds
`"A"` and the cache file is untouched. -/
theorem C1_eviction_memory_only_witness :
    (ensureSpreadsheetId ⟨"Feedback", "B", some "c", fun _ => some 0,
        fun _ => "T"⟩
      ⟨fun x => x == "B", fun _ => ["Feedback"], some "A", none, 0⟩
      ⟨"A", true⟩).state.cachedSpreadsheetId ≠ "A" ∧
    ((ensureSpreadsheetId ⟨"Feedback", "B", some "c", fun _ => some 0,
        fun _ => "T"⟩
      ⟨fun x => x == "B", fun _ => ["Feedback"], some "A", none, 0⟩
      ⟨"A", true⟩).world.cacheFile =
        (⟨fun x => x == "B", fun _ => ["Feedback"], some "A", none,
          0⟩ : World).cacheFile ∨
      ∃ c, (ensureSpreadsheetId ⟨"Feedback", "B", some "c", fun _ => some 0,
          fun _ => "T"⟩
        ⟨fun x => x == "B", fun _ => ["Feedback"], some "A", none, 0⟩
        ⟨"A", true⟩).result = Except.ok c ∧
        (ensureSpreadsheetId ⟨"Feedback", "B", some "c", fun _ => some 0,
            fun _ => "T"⟩
          ⟨fun x => x == "B", fun _ => ["Feedback"], some "A", none, 0⟩
          ⟨"A", true⟩).world.cacheFile = some c) :=
  C1_eviction_memory_only
    ⟨"Feedback", "B", some "c", fun _ => some 0, fun _ => "T"⟩
    ⟨fun x => x == "B", fun _ => ["Feedback"], some "A", none, 0⟩
    ⟨"A", true⟩ (by decide) rfl (by decide)

/-- Claim C2: when the memoized identifier exists but fails its
accessibility verification, the memo is cleared and the remaining tiers are
tried in exactly the order configuration value → cache file → creation (the
effect trace is the failed probe followed by the spec's fallback order), and
the returned value is never the stale identifier. -/
theorem C2_stale_fallthrough (env : Env) (w : World) (s : ProcState)
    (ha : s.cachedSpreadsheetId ≠ "")
    (hacc : w.accessible s.cachedSpreadsheetId = false)
    (hcr : w.createResult ≠ some s.cachedSpreadsheetId) :
    (ensureSpreadsheetId env w s).result ≠
      Except.ok s.cachedSpreadsheetId ∧
    (ensureSpreadsheetId env w s).state.cachedSpreadsheetId ≠
      s.cachedSpreadsheetId ∧
    (ensureSpreadsheetId env w s).trace =
      Effect.getSpreadsheet s.cachedSpreadsheetId ::
        specFallbackTrace env w := by
  rw [ensureSpreadsheetId_memo_miss env w s ha hacc]
  obtain ⟨h1, h2⟩ :=
    envTier_avoid env w { s with cachedSpreadsheetId := "" }
      s.cachedSpreadsheetId (Ne.symm ha) hacc hcr
  refine ⟨by simpa using h1, by simpa using h2, ?_⟩
  simp [trace_envTier]

/-- Concrete instantiation of `C2_stale_fallthrough`: memo `"A"` fails, the
tiers run in order and the stale identifier is not returned. -/
theorem C2_stale_fallthrough_witness :
    (ensureSpreadsheetId ⟨"Feedback", "B", some "c", fun _ => some 0,
        fun _ => "T"⟩
      ⟨fun x => x == "B", fun _ => ["Feedback"], some "A", none, 0⟩
      ⟨"A", true⟩).result ≠ Except.ok "A" ∧
    (ensureSpreadsheetId ⟨"Feedback", "B", some "c", fun _ => some 0,
        fun _ => "T"⟩
      ⟨fun x => x == "B", fun _ => ["Feedback"], some "A", none, 0⟩
      ⟨"A", true⟩).trace =
      Effect.getSpreadsheet "A" ::
        specFallbackTrace
          ⟨"Feedback", "B", some "c", fun _ => some 0, fun _ => "T"⟩
          ⟨fun x => x == "B", fun _ => ["Feedback"], some "A", none, 0⟩ := by
  refine ⟨?_, ?_⟩
  · exact (C2_stale_fallthrough
      ⟨"Feedback", "B", some "c", fun _ => some 0, fun _ => "T"⟩
      ⟨fun x => x == "B", fun _ => ["Feedback"], some "A", none, 0⟩
      ⟨"A", true⟩ (by decide) rfl (by decide)).1
  · exact (C2_stale_fallthrough
      ⟨"Feedback", "B", some "c", fun _ => some 0, fun _ => "T"⟩
      ⟨fun x => x == "B", fun _ => ["Feedback"], some "A", none, 0⟩
      ⟨"A", true⟩ (by decide) rfl (by decide)).2.2

/-- Effects that only read external state: accessibility probes and the
cache-file read. -/
def isProbe : Effect → Bool
  | Effect.getSpreadsheet _ => true
  | Effect.readCacheFile => true
  | _ => false

theorem withPre_withPre {α : Type} (a b : List Effect) (r : RunResult α) :
    withPre a (withPre b r) = withPre (a ++ b) r := by
  cases r
  simp [withPre]

/-- When the creation response carries no identifier (or an empty one), the
creation tier throws the provisioning error and changes nothing. -/
theorem createTier_fail (env : Env) (w : World) (s : ProcState)
    (h : w.createResult = none ∨ w.createResult = some "") :
    createTier env w s =
      ⟨Except.error "Failed to auto-create fallback spreadsheet.", s, w,
        [Effect.createSpreadsheet]⟩ := by
  unfold createTier
  rcases h with h | h <;> simp [h]

theorem fileTier_reach (env : Env) (w : World) (s : ProcState)
    (h : Effect.createSpreadsheet ∈ (fileTier env w s).trace) :
    ∃ pre, (∀ e ∈ pre, isProbe e = true) ∧
      fileTier env w s = withPre pre (createTier env w s) := by
  unfold fileTier at h ⊢
  cases hc : w.cacheFile with
  | none =>
    exact ⟨[Effect.readCacheFile], by simp [isProbe], rfl⟩
  | some stored =>
    rw [hc] at h
    by_cases ht : jsTrim stored = ""
    · simp only [ht, if_pos rfl] at h ⊢
      exact ⟨[Effect.readCacheFile], by simp [isProbe], rfl⟩
    · simp only [if_neg ht] at h ⊢
      by_cases ha : w.accessible (jsTrim stored)
      · rw [if_pos ha] at h
        simp at h
      · rw [if_neg ha] at h ⊢
        exact ⟨[Effect.readCacheFile, Effect.getSpreadsheet (jsTrim stored)],
          by simp [isProbe], rfl⟩

theorem envTier_reach (env : Env) (w : World) (s : ProcState)
    (h : Effect.createSpreadsheet ∈ (envTier env w s).trace) :
    ∃ pre, (∀ e ∈ pre, isProbe e = true) ∧
      envTier env w s = withPre pre (createTier env w s) := by
  unfold envTier at h ⊢
  by_cases he : env.envSpreadsheetId = ""
  · rw [if_pos he] at h ⊢
    exact fileTier_reach env w s h
  · rw [if_neg he] at h ⊢
    by_cases ha : w.accessible env.envSpreadsheetId
    · rw [if_pos ha] at h
      simp at h
    · rw [if_neg ha] at h ⊢
      have h2 : Effect.createSpreadsheet ∈ (fileTier env w s).trace := by
        simpa using h
      obtain ⟨pre, hp, heq⟩ := fileTier_reach env w s h2
      refine ⟨Effect.getSpreadsheet env.envSpreadsheetId :: pre, ?_, ?_⟩
      · intro e he2
        rcases List.mem_cons.mp he2 with he2 | he2
        · simp [he2, isProbe]
        · exact hp e he2
      · rw [heq, withPre_withPre]
        rfl

theorem ensureSpreadsheetId_reach (env : Env) (w : World) (s : ProcState)
    (h : Effect.createSpreadsheet ∈ (ensureSpreadsheetId env w s).trace) :
    ∃ pre s0, (∀ e ∈ pre, isProbe e = true) ∧ s0.cachedSpreadsheetId = "" ∧
      ensureSpreadsheetId env w s = withPre pre (createTier env w s0) := by
  unfold ensureSpreadsheetId at h ⊢
  by_cases hm : s.cachedSpreadsheetId = ""
  · rw [if_pos hm] at h ⊢
    obtain ⟨pre, hp, heq⟩ := envTier_reach env w s h
    exact ⟨pre, s, hp, hm, heq⟩
  · rw [if_neg hm] at h ⊢
    by_cases ha : w.accessible s.cachedSpreadsheetId
    · rw [if_pos ha] at h
      simp at h
    · rw [if_neg ha] at h ⊢
      have h2 : Effect.createSpreadsheet ∈
          (envTier env w { s with cachedSpreadsheetId := "" }).trace := by
        simpa using h
      obtain ⟨pre, hp, heq⟩ :=
        envTier_reach env w { s with cachedSpreadsheetId := "" } h2
      refine ⟨Effect.getSpreadsheet s.cachedSpreadsheetId :: pre,
        { s with cachedSpreadsheetId := "" }, ?_, rfl, ?_⟩
      · intro e he2
        rcases List.mem_cons.mp he2 with he2 | he2
        · simp [he2, isProbe]
        · exact hp e he2
      · rw [heq, withPre_withPre]
        rfl

/-- Claim C9: when resolution reaches the creation tier and creation returns
no identifier, the call fails with the provisioning error, no further
fallback is attempted (the creation call is the last effect), and neither
the in-memory memo nor the on-disk cache file is updated. -/
theorem C9_creation_failure (env : Env) (w : World) (s : ProcState)
    (hfail : w.createResult = none ∨ w.createResult = some "")
    (hreach :
      Effect.createSpreadsheet ∈ (ensureSpreadsheetId env w s).trace) :
    (ensureSpreadsheetId env w s).result =
      Except.error "Failed to auto-create fallback spreadsheet." ∧
    (ensureSpreadsheetId env w s).state.cachedSpreadsheetId = "" ∧
    (ensureSpreadsheetId env w s).world = w ∧
    (∀ v, Effect.writeCacheFile v ∉ (ensureSpreadsheetId env w s).trace) ∧
    (ensureSpreadsheetId env w s).trace.getLast? =
      some Effect.createSpreadsheet := by
  obtain ⟨pre, s0, hp, hs0, heq⟩ := ensureSpreadsheetId_reach env w s hreach
  rw [heq, createTier_fail env w s0 hfail]
  refine ⟨rfl, hs0, rfl, ?_, ?_⟩
  · intro v hv
    simp only [withPre_trace] at hv
    rcases List.mem_append.mp hv with hv | hv
    · simpa [isProbe] using hp _ hv
    · simp at hv
  · simp only [withPre_trace]
    rw [List.getLast?_append_cons]
    rfl

/-- Concrete instantiation of `C9_creation_failure`: no configured id, no
cache file, no accessible spreadsheet, and a creation response without an
identifier. -/
theorem C9_creation_failure_witness :
    (ensureSpreadsheetId ⟨"Feedback", "", some "c", fun _ => some 0,
        fun _ => "T"⟩
      ⟨fun _ => false, fun _ => [], none, none, 0⟩
      ⟨"", false⟩).result =
      Except.error "Failed to auto-create fallback spreadsheet." ∧
    (∀ v, Effect.writeCacheFile v ∉
      (ensureSpreadsheetId ⟨"Feedback", "", some "c", fun _ => some 0,
          fun _ => "T"⟩
        ⟨fun _ => false, fun _ => [], none, none, 0⟩
        ⟨"", false⟩).trace) ∧
    (ensureSpreadsheetId ⟨"Feedback", "", some "c", fun _ => some 0,
        fun _ => "T"⟩
      ⟨fun _ => false, fun _ => [], none, none, 0⟩
      ⟨"", false⟩).trace.getLast? = some Effect.createSpreadsheet := by
  refine ⟨?_, ?_, ?_⟩
  · exact (C9_creation_failure
      ⟨"Feedback", "", some "c", fun _ => some 0, fun _ => "T"⟩
      ⟨fun _ => false, fun _ => [], none, none, 0⟩
      ⟨"", false⟩ (Or.inl rfl) (by decide)).1
  · exact (C9_creation_failure
      ⟨"Feedback", "", some "c", fun _ => some 0, fun _ => "T"⟩
      ⟨fun _ => false, fun _ => [], none, none, 0⟩
      ⟨"", false⟩ (Or.inl rfl) (by decide)).2.2.2.1
  · exact (C9_creation_failure
      ⟨"Feedback", "", some "c", fun _ => some 0, fun _ => "T"⟩
      ⟨fun _ => false, fun _ => [], none, none, 0⟩
      ⟨"", false⟩ (Or.inl rfl) (by decide)).2.2.2.2

theorem ensureSheetTab_inaccessible (env : Env) (w : World) (s : ProcState)
    (id : String) (h : w.accessible id = false) :
    ensureSheetTab env w s id =
      ⟨Except.error "Requested entity was not found.", s, w,
        [Effect.getSpreadsheet id]⟩ := by
  unfold ensureSheetTab
  rw [h]
  simp

theorem ensureSheetTab_present (env : Env) (w : World) (s : ProcState)
    (id : String) (h1 : w.accessible id = true)
    (h2 : env.tabName ∈ w.sheetTitles id) :
    ensureSheetTab env w s id =
      ⟨Except.ok (), s, w, [Effect.getSpreadsheet id]⟩ := by
  unfold ensureSheetTab
  rw [if_pos h1, if_pos h2]

theorem ensureSheetTab_absent (env : Env) (w : World) (s : ProcState)
    (id : String) (h1 : w.accessible id = true)
    (h2 : env.tabName ∉ w.sheetTitles id) :
    ensureSheetTab env w s id =
      ⟨Except.ok (), s,
        { w with sheetTitles := fun x =>
            if x == id then w.sheetTitles x ++ [env.tabName]
            else w.sheetTitles x },
        [Effect.getSpreadsheet id, Effect.addSheet id,
         Effect.writeHeader id HEADER]⟩ := by
  unfold ensureSheetTab
  rw [if_pos h1, if_neg h2]

theorem effect_beq_get_add (x y : String) :
    (Effect.getSpreadsheet x == Effect.addSheet y) = false := rfl

theorem effect_beq_header_add (x : String) (h : List String) (y : String) :
    (Effect.writeHeader x h == Effect.addSheet y) = false := rfl

/-- The second of two consecutive `ensureSheetTab` calls is a no-op probe:
it performs (and changes) nothing beyond the existence check. -/
theorem ensureSheetTab_second (env : Env) (w : World) (s : ProcState)
    (id : String) :
    ensureSheetTab env (ensureSheetTab env w s id).world
        (ensureSheetTab env w s id).state id =
      ⟨(ensureSheetTab env w s id).result,
        (ensureSheetTab env w s id).state,
        (ensureSheetTab env w s id).world,
        [Effect.getSpreadsheet id]⟩ := by
  by_cases hacc : w.accessible id
  · by_cases hmem : env.tabName ∈ w.sheetTitles id
    · rw [ensureSheetTab_present env w s id hacc hmem]
      exact ensureSheetTab_present env w s id hacc hmem
    · rw [ensureSheetTab_absent env w s id hacc hmem]
      refine ensureSheetTab_present env _ s id hacc ?_
      simp
  · have hacc' : w.accessible id = false := by simpa using hacc
    rw [ensureSheetTab_inaccessible env w s id hacc']
    exact ensureSheetTab_inaccessible env w s id hacc'

/-- Claim C7: `ensureSheetTab` is idempotent — across two consecutive calls
on the same store with no intervening external-state change, tab creation
happens at most once, the second call performs only the existence probe (a
no-op), and it leaves the world unchanged. -/
theorem C7_ensureTab_idempotent (env : Env) (w : World) (s : ProcState)
    (id : String) :
    (ensureSheetTab env (ensureSheetTab env w s id).world
        (ensureSheetTab env w s id).state id).trace =
      [Effect.getSpreadsheet id] ∧
    Effect.addSheet id ∉
      (ensureSheetTab env (ensureSheetTab env w s id).world
        (ensureSheetTab env w s id).state id).trace ∧
    (ensureSheetTab env (ensureSheetTab env w s id).world
        (ensureSheetTab env w s id).state id).world =
      (ensureSheetTab env w s id).world ∧
    List.countP (fun e => e == Effect.addSheet id)
      ((ensureSheetTab env w s id).trace ++
        (ensureSheetTab env (ensureSheetTab env w s id).world
          (ensureSheetTab env w s id).state id).trace) ≤ 1 := by
  rw [ensureSheetTab_second env w s id]
  refine ⟨rfl, by simp, rfl, ?_⟩
  by_cases hacc : w.accessible id
  · by_cases hmem : env.tabName ∈ w.sheetTitles id
    · rw [ensureSheetTab_present env w s id hacc hmem]
      simp [List.countP_cons, List.countP_nil, effect_beq_get_add]
    · rw [ensureSheetTab_absent env w s id hacc hmem]
      simp [List.countP_cons, List.countP_nil, effect_beq_get_add,
        effect_beq_header_add]
  · have hacc' : w.accessible id = false := by simpa using hacc
    rw [ensureSheetTab_inaccessible env w s id hacc']
    simp [List.countP_cons, List.countP_nil, effect_beq_get_add]

/-- A submission whose trimmed `feedbackType` is not one of the two
permitted values is rejected before any work happens. -/
theorem POST_invalid (env : Env) (w : World) (s : ProcState) (p : Payload)
    (h : normFeedbackType p ∉ (["positive", "negative"] : List String)) :
    POST env w s p =
      ⟨⟨400, some "feedbackType must be \"positive\" or \"negative\".",
        false⟩, s, w, []⟩ := by
  simp only [POST]
  rw [if_pos (Or.inr h)]

/-- Claim C3 counterexample: the submission whose `feedbackType` field is
`" positive "` — present, but not one of the two strings `"positive"` and
`"negative"` — is accepted with a 200 response and performs external calls,
because the handler trims the field before validating it. -/
theorem C3_counterexample :
    (" positive " ∉ (["positive", "negative"] : List String)) ∧
    (POST ⟨"Feedback", "", some "c", fun _ => some 0, fun _ => "T"⟩
      ⟨fun x => x == "A", fun _ => ["Feedback"], none, none, 0⟩
      ⟨"A", true⟩
      ⟨some " positive ", none, none, none, none, none, none, none,
        none⟩).response.status = 200 ∧
    (POST ⟨"Feedback", "", some "c", fun _ => some 0, fun _ => "T"⟩
      ⟨fun x => x == "A", fun _ => ["Feedback"], none, none, 0⟩
      ⟨"A", true⟩
      ⟨some " positive ", none, none, none, none, none, none, none,
        none⟩).response.success = true ∧
    (POST ⟨"Feedback", "", some "c", fun _ => some 0, fun _ => "T"⟩
      ⟨fun x => x == "A", fun _ => ["Feedback"], none, none, 0⟩
      ⟨"A", true⟩
      ⟨some " positive ", none, none, none, none, none, none, none,
        none⟩).trace ≠ [] := by
  refine ⟨by decide, by decide, by decide, by decide⟩

/-- Claim C3 (amended): a submission whose `feedbackType`, after trimming
surrounding whitespace, is absent or not one of `"positive"` and
`"negative"` is rejected with the 400 validation error, with no external
call and no state or world change. -/
theorem C3_invalid_feedbackType (env : Env) (w : World) (s : ProcState)
    (p : Payload)
    (h : normFeedbackType p ∉ (["positive", "negative"] : List String)) :
    (POST env w s p).response.status = 400 ∧
    (POST env w s p).response.error =
      some "feedbackType must be \"positive\" or \"negative\"." ∧
    (POST env w s p).trace = [] ∧
    (POST env w s p).state = s ∧
    (POST env w s p).world = w := by
  rw [POST_invalid env w s p h]
  exact ⟨rfl, rfl, rfl, rfl, rfl⟩

/-- Concrete instantiation of `C3_invalid_feedbackType` at the payload with
`feedbackType = "bogus"`. -/
theorem C3_invalid_feedbackType_witness :
    (POST ⟨"Feedback", "", some "c", fun _ => some 0, fun _ => "T"⟩
      ⟨fun x => x == "A", fun _ => ["Feedback"], none, none, 0⟩
      ⟨"A", true⟩
      ⟨some "bogus", none, none, none, none, none, none, none,
        none⟩).response.status = 400 ∧
    (POST ⟨"Feedback", "", some "c", fun _ => some 0, fun _ => "T"⟩
      ⟨fun x => x == "A", fun _ => ["Feedback"], none, none, 0⟩
      ⟨"A", true⟩
      ⟨some "bogus", none, none, none, none, none, none, none,
        none⟩).trace = [] := by
  refine ⟨?_, ?_⟩
  · exact (C3_invalid_feedbackType
      ⟨"Feedback", "", some "c", fun _ => some 0, fun _ => "T"⟩
      ⟨fun x => x == "A", fun _ => ["Feedback"], none, none, 0⟩
      ⟨"A", true⟩
      ⟨some "bogus", none, none, none, none, none, none, none, none⟩
      (by decide)).1
  · exact (C3_invalid_feedbackType
      ⟨"Feedback", "", some "c", fun _ => some 0, fun _ => "T"⟩
      ⟨fun x => x == "A", fun _ => ["Feedback"], none, none, 0⟩
      ⟨"A", true⟩
      ⟨some "bogus", none, none, none, none, none, none, none, none⟩
      (by decide)).2.2.1

/-- Claim C10: a request whose body is not parseable JSON is treated as an
empty object, so it is rejected with the 400 `feedbackType` validation error
— never a 500 parse error — with no external call and no state or world
change. -/
theorem C10_unparseable_body (env : Env) (w : World) (s : ProcState) :
    (POSTofBody env w s none).response.status = 400 ∧
    (POSTofBody env w s none).response.error =
      some "feedbackType must be \"positive\" or \"negative\"." ∧
    (POSTofBody env w s none).response.status ≠ 500 ∧
    (POSTofBody env w s none).trace = [] ∧
    (POSTofBody env w s none).state = s ∧
    (POSTofBody env w s none).world = w := by
  have h : normFeedbackType emptyPayload ∉
      (["positive", "negative"] : List String) := by decide
  simp only [POSTofBody, Option.getD_none]
  rw [POST_invalid env w s emptyPayload h]
  exact ⟨rfl, rfl, by simp, rfl, rfl, rfl⟩

/-- Claim C8: when credentials are absent or malformed, loading yields only
the unconfigured state (no exception — `loadCredentials` is total and
returns `none`), and at store-use time a validated submission gets a 500
response whose message names the missing credential configuration, with no
external call attempted. -/
theorem C8_missing_credentials (env : Env) (w : World) (s : ProcState)
    (p : Payload) (hcred : env.credentials = none)
    (hready : s.clientReady = false)
    (hft : normFeedbackType p ∈ (["positive", "negative"] : List String))
    (hts : normProvidedTimestamp p = "" ∨
      (env.parseDate (normProvidedTimestamp p)).isSome) :
    (POST env w s p).response.status = 500 ∧
    (POST env w s p).response.error =
      some "Google Sheets feedback integration is missing required credentials (GOOGLE_SHEETS_CREDENTIALS)." ∧
    (POST env w s p).trace = [] ∧
    (POST env w s p).state = s ∧
    (POST env w s p).world = w ∧
    (∀ parse : String → Option String, loadCredentials parse none = none) ∧
    (∀ (parse : String → Option String) (raw : String), parse raw = none →
      loadCredentials parse (some raw) = none) := by
  have hne : normFeedbackType p ≠ "" := by
    intro h0
    rw [h0] at hft
    simp at hft
  have hcond : ¬(normFeedbackType p = "" ∨
      normFeedbackType p ∉ (["positive", "negative"] : List String)) := by
    intro hor
    rcases hor with h0 | h0
    · exact hne h0
    · exact h0 hft
  have hg : getSheetsClient env s =
      (Except.error "Google Sheets feedback integration is missing required credentials (GOOGLE_SHEETS_CREDENTIALS).",
        s) := by
    simp [getSheetsClient, hready, hcred]
  have hload1 : ∀ parse : String → Option String,
      loadCredentials parse none = none := fun _ => rfl
  have hload2 : ∀ (parse : String → Option String) (raw : String),
      parse raw = none → loadCredentials parse (some raw) = none := by
    intro parse raw hpr
    simpa [loadCredentials] using hpr
  simp only [POST]
  rw [if_neg hcond]
  rcases hts with h0 | h1
  · rw [if_pos h0]
    simp only [appendPipeline, hg]
    refine ⟨?_, ?_, ?_, ?_, ?_, hload1, hload2⟩ <;> trivial
  · obtain ⟨ms, hms⟩ := Option.isSome_iff_exists.mp h1
    by_cases h0 : normProvidedTimestamp p = ""
    · rw [if_pos h0]
      simp only [appendPipeline, hg]
      refine ⟨?_, ?_, ?_, ?_, ?_, hload1, hload2⟩ <;> trivial
    · rw [if_neg h0]
      simp only [hms, appendPipeline, hg]
      refine ⟨?_, ?_, ?_, ?_, ?_, hload1, hload2⟩ <;> trivial

/-- Concrete instantiation of `C8_missing_credentials`: no credentials, a
fresh process, a valid `"positive"` submission. -/
theorem C8_missing_credentials_witness :
    (POST ⟨"Feedback", "", none, fun _ => some 0, fun _ => "T"⟩
      ⟨fun _ => false, fun _ => [], none, none, 0⟩
      ⟨"", false⟩
      ⟨some "positive", none, none, none, none, none, none, none,
        none⟩).response.status = 500 ∧
    (POST ⟨"Feedback", "", none, fun _ => some 0, fun _ => "T"⟩
      ⟨fun _ => false, fun _ => [], none, none, 0⟩
      ⟨"", false⟩
      ⟨some "positive", none, none, none, none, none, none, none,
        none⟩).response.error =
      some "Google Sheets feedback integration is missing required credentials (GOOGLE_SHEETS_CREDENTIALS)." ∧
    (POST ⟨"Feedback", "", none, fun _ => some 0, fun _ => "T"⟩
      ⟨fun _ => false, fun _ => [], none, none, 0⟩
      ⟨"", false⟩
      ⟨some "positive", none, none, none, none, none, none, none,
        none⟩).trace = [] := by
  refine ⟨?_, ?_, ?_⟩
  · exact (C8_missing_credentials
      ⟨"Feedback", "", none, fun _ => some 0, fun _ => "T"⟩
      ⟨fun _ => false, fun _ => [], none, none, 0⟩
      ⟨"", false⟩
      ⟨some "positive", none, none, none, none, none, none, none, none⟩
      rfl rfl (by decide) (Or.inl (by decide))).1
  · exact (C8_missing_credentials
      ⟨"Feedback", "", none, fun _ => some 0, fun _ => "T"⟩
      ⟨fun _ => false, fun _ => [], none, none, 0⟩
      ⟨"", false⟩
      ⟨some "positive", none, none, none, none, none, none, none, none⟩
      rfl rfl (by decide) (Or.inl (by decide))).2.1
  · exact (C8_missing_credentials
      ⟨"Feedback", "", none, fun _ => some 0, fun _ => "T"⟩
      ⟨fun _ => false, fun _ => [], none, none, 0⟩
      ⟨"", false⟩
      ⟨some "positive", none, none, none, none, none, none, none, none⟩
      rfl rfl (by decide) (Or.inl (by decide))).2.2.1

/-- Recognizer for append effects. -/
def isAppend : Effect → Bool
  | Effect.appendRow _ _ => true
  | _ => false

@[simp] theorem isAppend_getSpreadsheet (x : String) :
    isAppend (Effect.getSpreadsheet x) = false := rfl

@[simp] theorem isAppend_createSpreadsheet :
    isAppend Effect.createSpreadsheet = false := rfl

@[simp] theorem isAppend_addSheet (x : String) :
    isAppend (Effect.addSheet x) = false := rfl

@[simp] theorem isAppend_writeHeader (x : String) (h : List String) :
    isAppend (Effect.writeHeader x h) = false := rfl

@[simp] theorem isAppend_appendRow (x : String) (r : List String) :
    isAppend (Effect.appendRow x r) = true := rfl

@[simp] theorem isAppend_readCacheFile :
    isAppend Effect.readCacheFile = false := rfl

@[simp] theorem isAppend_writeCacheFile (v : String) :
    isAppend (Effect.writeCacheFile v) = false := rfl

theorem isAppend_false_specCreate (w : World) :
    ∀ e ∈ specCreateTrace w, isAppend e = false := by
  unfold specCreateTrace
  cases hc : w.createResult with
  | none => simp
  | some id => by_cases he : id = "" <;> simp [he]

theorem isAppend_false_specFile (w : World) :
    ∀ e ∈ specFileTrace w, isAppend e = false := by
  unfold specFileTrace
  cases hc : w.cacheFile with
  | none =>
    intro e he
    rcases List.mem_cons.mp he with h | h
    · simp [h]
    · exact isAppend_false_specCreate w e h
  | some stored =>
    by_cases ht : jsTrim stored = ""
    · simp only [ht, if_pos rfl]
      intro e he
      rcases List.mem_cons.mp he with h | h
      · simp [h]
      · exact isAppend_false_specCreate w e h
    · simp only [if_neg ht]
      by_cases ha : w.accessible (jsTrim stored)
      · rw [if_pos ha]
        intro e he
        simp only [List.mem_cons, List.not_mem_nil, or_false] at he
        rcases he with h | h <;> simp [h]
      · rw [if_neg ha]
        intro e he
        rcases List.mem_cons.mp he with h | h
        · simp [h]
        · rcases List.mem_cons.mp h with h2 | h2
          · simp [h2]
          · exact isAppend_false_specCreate w e h2

theorem isAppend_false_specFallback (env : Env) (w : World) :
    ∀ e ∈ specFallbackTrace env w, isAppend e = false := by
  unfold specFallbackTrace
  by_cases he : env.envSpreadsheetId = ""
  · rw [if_pos he]
    exact isAppend_false_specFile w
  · rw [if_neg he]
    by_cases ha : w.accessible env.envSpreadsheetId
    · rw [if_pos ha]
      intro e he2
      simp only [List.mem_cons, List.not_mem_nil, or_false] at he2
      simp [he2]
    · rw [if_neg ha]
      intro e he2
      rcases List.mem_cons.mp he2 with h | h
      · simp [h]
      · exact isAppend_false_specFile w e h

theorem isAppend_false_ensure (env : Env) (w : World) (s : ProcState) :
    ∀ e ∈ (ensureSpreadsheetId env w s).trace, isAppend e = false := by
  intro e he
  rw [show (ensureSpreadsheetId env w s).trace =
      (if s.cachedSpreadsheetId = "" then (envTier env w s).trace
       else if w.accessible s.cachedSpreadsheetId then
         [Effect.getSpreadsheet s.cachedSpreadsheetId]
       else Effect.getSpreadsheet s.cachedSpreadsheetId ::
         (envTier env w { s with cachedSpreadsheetId := "" }).trace) by
    unfold ensureSpreadsheetId
    by_cases hm : s.cachedSpreadsheetId = ""
    · rw [if_pos hm, if_pos hm]
    · rw [if_neg hm, if_neg hm]
      by_cases ha : w.accessible s.cachedSpreadsheetId
      · rw [if_pos ha, if_pos ha]
      · rw [if_neg ha, if_neg ha]
        rfl] at he
  by_cases hm : s.cachedSpreadsheetId = ""
  · rw [if_pos hm] at he
    rw [trace_envTier] at he
    exact isAppend_false_specFallback env w e he
  · rw [if_neg hm] at he
    by_cases ha : w.accessible s.cachedSpreadsheetId
    · rw [if_pos ha] at he
      simp only [List.mem_cons, List.not_mem_nil, or_false] at he
      simp [he]
    · rw [if_neg ha] at he
      rcases List.mem_cons.mp he with h | h
      · simp [h]
      · rw [trace_envTier] at h
        exact isAppend_false_specFallback env w e h

theorem isAppend_false_ensureTab (env : Env) (w : World) (s : ProcState)
    (id : String) :
    ∀ e ∈ (ensureSheetTab env w s id).trace, isAppend e = false := by
  intro e he
  by_cases hacc : w.accessible id
  · by_cases hmem : env.tabName ∈ w.sheetTitles id
    · rw [ensureSheetTab_present env w s id hacc hmem] at he
      simp only [List.mem_cons, List.not_mem_nil, or_false] at he
      simp [he]
    · rw [ensureSheetTab_absent env w s id hacc hmem] at he
      simp only [List.mem_cons, List.not_mem_nil, or_false] at he
      rcases he with h | h | h <;> simp [h]
  · have hacc' : w.accessible id = false := by simpa using hacc
    rw [ensureSheetTab_inaccessible env w s id hacc'] at he
    simp only [List.mem_cons, List.not_mem_nil, or_false] at he
    simp [he]

theorem filter_isAppend_ensure (env : Env) (w : World) (s : ProcState) :
    (ensureSpreadsheetId env w s).trace.filter (fun e => isAppend e) = [] := by
  rw [List.filter_eq_nil_iff]
  intro a ha
  simp [isAppend_false_ensure env w s a ha]

theorem filter_isAppend_ensureTab (env : Env) (w : World) (s : ProcState)
    (id : String) :
    (ensureSheetTab env w s id).trace.filter (fun e => isAppend e) = [] := by
  rw [List.filter_eq_nil_iff]
  intro a ha
  simp [isAppend_false_ensureTab env w s id a ha]

/-- Either the append pipeline fails (500 response, no append effect in its
trace), or it succeeds with exactly one append effect carrying the
eight-column record row. -/
theorem appendPipeline_spec (env : Env) (w : World) (s : ProcState)
    (p : Payload) (ts : String) :
    ((appendPipeline env w s p ts).trace.filter (fun e => isAppend e) = [] ∧
      (appendPipeline env w s p ts).response.success = false) ∨
    (∃ sid,
      (appendPipeline env w s p ts).trace.filter (fun e => isAppend e) =
        [Effect.appendRow sid (recordRow p ts)] ∧
      (appendPipeline env w s p ts).response = ⟨200, none, true⟩) := by
  unfold appendPipeline
  rcases hg : getSheetsClient env s with ⟨eg, s1⟩
  cases eg with
  | error m =>
    simp only [hg]
    refine Or.inl ⟨?_, ?_⟩ <;> trivial
  | ok u =>
    simp only [hg]
    cases hres : (ensureSpreadsheetId env w s1).result with
    | error m =>
      simp only [hres]
      refine Or.inl ⟨filter_isAppend_ensure env w s1, ?_⟩
      trivial
    | ok sid =>
      simp only [hres]
      cases hres2 : (ensureSheetTab env (ensureSpreadsheetId env w s1).world
          (ensureSpreadsheetId env w s1).state sid).result with
      | error m =>
        simp only [hres2]
        refine Or.inl ⟨?_, ?_⟩
        · simp [List.filter_append, filter_isAppend_ensure,
            filter_isAppend_ensureTab]
        · trivial
      | ok u2 =>
        simp only [hres2]
        refine Or.inr ⟨sid, ?_, ?_⟩
        · simp [List.filter_append, filter_isAppend_ensure,
            filter_isAppend_ensureTab]
        · trivial

/-- Either `POST` produces no append effect and an unsuccessful response, or
it succeeds with exactly one append effect whose row is the eight-column
record with the normalized timestamp. -/
theorem POST_append_spec (env : Env) (w : World) (s : ProcState)
    (p : Payload) :
    ((POST env w s p).trace.filter (fun e => isAppend e) = [] ∧
      (POST env w s p).response.success = false) ∨
    (∃ sid ts,
      (POST env w s p).trace.filter (fun e => isAppend e) =
        [Effect.appendRow sid (recordRow p ts)] ∧
      ((normProvidedTimestamp p = "" ∧ ts = env.isoString w.nowMs) ∨
        (normProvidedTimestamp p ≠ "" ∧
          ∃ ms, env.parseDate (normProvidedTimestamp p) = some ms ∧
            ts = env.isoString ms)) ∧
      (POST env w s p).response = ⟨200, none, true⟩) := by
  by_cases hcond : (normFeedbackType p = "" ∨
      normFeedbackType p ∉ (["positive", "negative"] : List String))
  · left
    simp only [POST]
    rw [if_pos hcond]
    exact ⟨rfl, rfl⟩
  · simp only [POST]
    rw [if_neg hcond]
    by_cases hp : normProvidedTimestamp p = ""
    · rw [if_pos hp]
      rcases appendPipeline_spec env w s p (env.isoString w.nowMs) with
        ⟨h1, h2⟩ | ⟨sid, h1, h2⟩
      · exact Or.inl ⟨h1, h2⟩
      · exact Or.inr ⟨sid, env.isoString w.nowMs, h1,
          Or.inl ⟨hp, rfl⟩, h2⟩
    · rw [if_neg hp]
      cases hpd : env.parseDate (normProvidedTimestamp p) with
      | none =>
        simp only [hpd]
        refine Or.inl ⟨?_, ?_⟩ <;> trivial
      | some ms =>
        simp only [hpd]
        rcases appendPipeline_spec env w s p (env.isoString ms) with
          ⟨h1, h2⟩ | ⟨sid, h1, h2⟩
        · exact Or.inl ⟨h1, h2⟩
        · exact Or.inr ⟨sid, env.isoString ms, h1,
            Or.inr ⟨hp, ms, rfl, rfl⟩, h2⟩

/-- Claim C6: every successful submission appends exactly one row, and that
row has exactly the eight columns in the fixed header order: timestamp,
feedbackType, userComment, lastQuestion, lastResponse, serialized
fullConversation, sessionId, type label. -/
theorem C6_append_single_row (env : Env) (w : World) (s : ProcState)
    (p : Payload) (h : (POST env w s p).response.success = true) :
    ∃ sid ts,
      (POST env w s p).trace.filter (fun e => isAppend e) =
        [Effect.appendRow sid (recordRow p ts)] ∧
      (recordRow p ts).length = HEADER.length ∧
      recordRow p ts =
        [ts, normFeedbackType p, jsOrEmpty p.userComment,
         jsOrEmpty p.lastQuestion, jsOrEmpty p.lastResponse,
         stringifyConv (p.fullConversation.getD []),
         jsOrEmpty p.sessionId, normTypeLabel p] := by
  rcases POST_append_spec env w s p with ⟨h1, h2⟩ | ⟨sid, ts, h1, _, _⟩
  · rw [h] at h2
    exact absurd h2 (by simp)
  · exact ⟨sid, ts, h1, rfl, rfl⟩

/-- Concrete instantiation of `C6_append_single_row`: a successful
`"positive"` submission against an accessible memoized store. -/
theorem C6_append_single_row_witness :
    ∃ sid ts,
      (POST ⟨"Feedback", "", some "c", fun _ => some 0, fun _ => "T"⟩
        ⟨fun x => x == "A", fun _ => ["Feedback"], none, none, 0⟩
        ⟨"A", true⟩
        ⟨some "positive", none, none, none, none, none, none, none,
          none⟩).trace.filter (fun e => isAppend e) =
        [Effect.appendRow sid
          (recordRow
            ⟨some "positive", none, none, none, none, none, none, none,
              none⟩ ts)] ∧
      (recordRow
        ⟨some "positive", none, none, none, none, none, none, none,
          none⟩ ts).length = HEADER.length ∧
      recordRow
        ⟨some "positive", none, none, none, none, none, none, none,
          none⟩ ts =
        [ts,
         normFeedbackType
           ⟨some "positive", none, none, none, none, none, none, none,
             none⟩,
         jsOrEmpty (none : Option String), jsOrEmpty (none : Option String),
         jsOrEmpty (none : Option String), stringifyConv [],
         jsOrEmpty (none : Option String),
         normTypeLabel
           ⟨some "positive", none, none, none, none, none, none, none,
             none⟩] :=
  C6_append_single_row
    ⟨"Feedback", "", some "c", fun _ => some 0, fun _ => "T"⟩
    ⟨fun x => x == "A", fun _ => ["Feedback"], none, none, 0⟩
    ⟨"A", true⟩
    ⟨some "positive", none, none, none, none, none, none, none, none⟩
    (by decide)

/-- Claim C5: for every appended record, the timestamp column defaults to
the submission time when the caller supplies none (absent or blank after
trimming) and is otherwise the ISO-normalized parse of the caller-supplied
value; in every case the appended timestamp is a valid, parseable instant
(given that ISO rendering round-trips through the date parser). -/
theorem C5_timestamp_normalized (env : Env) (w : World) (s : ProcState)
    (p : Payload)
    (hrt : ∀ t : Int, (env.parseDate (env.isoString t)).isSome)
    (id : String) (row : List String)
    (hmem : Effect.appendRow id row ∈ (POST env w s p).trace) :
    ((normProvidedTimestamp p = "" ∧
        row.head? = some (env.isoString w.nowMs)) ∨
      (normProvidedTimestamp p ≠ "" ∧
        ∃ ms, env.parseDate (normProvidedTimestamp p) = some ms ∧
          row.head? = some (env.isoString ms))) ∧
    ∃ t, row.head? = some (env.isoString t) ∧
      (env.parseDate (env.isoString t)).isSome := by
  have hf : Effect.appendRow id row ∈
      (POST env w s p).trace.filter (fun e => isAppend e) :=
    List.mem_filter.mpr ⟨hmem, by simp⟩
  rcases POST_append_spec env w s p with ⟨h1, _⟩ | ⟨sid, ts, h1, hts, _⟩
  · rw [h1] at hf
    simp at hf
  · rw [h1] at hf
    simp only [List.mem_cons, List.not_mem_nil, or_false] at hf
    have hrow : row = recordRow p ts := by
      injection hf
    rcases hts with ⟨hp, hts⟩ | ⟨hp, ms, hms, hts⟩
    · constructor
      · exact Or.inl ⟨hp, by simp [hrow, recordRow, hts]⟩
      · exact ⟨w.nowMs, by simp [hrow, recordRow, hts], hrt w.nowMs⟩
    · constructor
      · exact Or.inr ⟨hp, ms, hms, by simp [hrow, recordRow, hts]⟩
      · exact ⟨ms, by simp [hrow, recordRow, hts], hrt ms⟩

/-- Concrete instantiation of `C5_timestamp_normalized`: no caller-supplied
timestamp, so the appended row's first column is the rendered submission
time. -/
theorem C5_timestamp_normalized_witness :
    ((normProvidedTimestamp
        ⟨some "positive", none, none, none, none, none, none, none,
          none⟩ = "" ∧
        (["T", "positive", "", "", "", "[]", "", ""] :
          List String).head? = some "T") ∨
      (normProvidedTimestamp
        ⟨some "positive", none, none, none, none, none, none, none,
          none⟩ ≠ "" ∧
        ∃ ms : Int, (some (0 : Int) = some ms ∧
          (["T", "positive", "", "", "", "[]", "", ""] :
            List String).head? = some "T"))) ∧
    ∃ t : Int, (["T", "positive", "", "", "", "[]", "", ""] :
        List String).head? = some "T" ∧
      (some (0 : Int)).isSome :=
  C5_timestamp_normalized
    ⟨"Feedback", "", some "c", fun _ => some 0, fun _ => "T"⟩
    ⟨fun x => x == "A", fun _ => ["Feedback"], none, none, 0⟩
    ⟨"A", true⟩
    ⟨some "positive", none, none, none, none, none, none, none, none⟩
    (fun _ => rfl) "A" ["T", "positive", "", "", "", "[]", "", ""]
    (by decide)

end Gikibot
